import Mathlib

/-!
# Verification of the account ledger domain engine

Shallow embedding of the core of the `Group5_SWConstruction` banking backend:
the `Account` aggregate (`src/domain/accounts.py`), the `Transaction` record
(`src/domain/transactions.py`), the account-kind withdrawal rules
(`src/domain/checking_account.py`, `src/domain/savings_account.py`), the
interest strategies (`src/domain/interest.py`) and the limit enforcement
service (`src/application/services/limit_enforcement_service.py`).

Python `float` amounts are modelled as `ℚ` (exact arithmetic on the decimal
amounts the code manipulates); `datetime` values are modelled as integer
timestamps (epoch seconds for `Transaction.timestamp`, whole-day numbers for
the interest date range, matching `timedelta.days` on whole-day datetimes).
Python exceptions are modelled with `Except`: every statement of a method is
threaded in source order, so a raise that happens after an in-place mutation
leaves the mutation in the returned state, exactly as in Python.
-/

namespace Banking

/-- Error kinds. The Python code raises `ValueError` with distinct messages;
we classify errors by which raise site produced them. `other` stands for an
arbitrary exception raised inside an observer callback. -/
inductive Err where
  | invalidAmount
  | insufficientFunds
  | transferRequiresAccounts
  | limitDaily
  | limitMonthly
  | other (msg : String)
  deriving DecidableEq, Repr

/-- `TransactionType` hierarchy of `src/domain/transactions.py`
(`DepositTransactionType`, `WithdrawTransactionType`,
`TransferTransactionType`) as a sum type. -/
inductive TransactionType where
  | deposit
  | withdraw
  | transfer
  deriving DecidableEq, Repr

/-- `Transaction.__post_init__` sets
`self.transaction_id = f"txn_{self.timestamp.timestamp()}"`: the id is the
string `txn_` followed by the rendered timestamp. -/
def mkTransactionId (timestamp : Nat) : String :=
  "txn_" ++ toString timestamp

/-- The `Transaction` dataclass of `src/domain/transactions.py`.
`source_account_id` and `destination_account_id` default to `None` in the
source; an absent id is `none` and Python truthiness on a string makes the
empty string falsy as well. -/
structure Transaction where
  transaction_type : TransactionType
  amount : ℚ
  account_id : String
  timestamp : Nat
  transaction_id : String
  source_account_id : Option String := none
  destination_account_id : Option String := none
  deriving DecidableEq, Repr

/-- Python truthiness of an optional string: `None` and `""` are falsy. -/
def truthyStr : Option String → Bool
  | none => false
  | some s => s ≠ ""

/-- `Transaction.__post_init__`: raises when `amount <= 0`; sets
`transaction_id` from the timestamp; for a `TransferTransactionType` raises
unless both `source_account_id` and `destination_account_id` are truthy. -/
def mkTransaction (ty : TransactionType) (amount : ℚ) (account_id : String)
    (timestamp : Nat) (src dst : Option String) : Except Err Transaction :=
  if amount ≤ 0 then
    .error .invalidAmount
  else if ty = .transfer ∧ ¬(truthyStr src ∧ truthyStr dst) then
    .error .transferRequiresAccounts
  else
    .ok { transaction_type := ty, amount, account_id, timestamp,
          transaction_id := mkTransactionId timestamp,
          source_account_id := src, destination_account_id := dst }

/-- `AccountStatus` hierarchy (`ActiveStatus` / `ClosedStatus`) of
`src/domain/accounts.py`. -/
inductive AccountStatus where
  | active
  | closed
  deriving DecidableEq, Repr

/-- `AccountType` hierarchy: `CheckingAccountType` / `SavingsAccountType`. -/
inductive AccountType where
  | checking
  | savings
  deriving DecidableEq, Repr

/-- An observer callback (`Callable` registered via `Account.add_observer`);
it may raise. -/
def Observer : Type := Transaction → Except Err Unit

/-- The `Account` dataclass of `src/domain/accounts.py`, restricted to the
ledger state read or written by `deposit` / `withdraw` / `transfer`:
the authentication fields (`username`, `_password_hash`), the interest
strategy reference and the monthly-statement cache are never touched by
those operations and are omitted. -/
structure Account where
  account_id : String
  account_type : AccountType
  balance : ℚ
  status : AccountStatus
  creation_date : Nat
  transactions : List Transaction
  observers : List Observer
  accrued_interest : ℚ

/-- `SavingsAccount.MINIMUM_BALANCE = 100.00`. -/
def MINIMUM_BALANCE : ℚ := 100

/-- The polymorphic `can_withdraw`: `CheckingAccount.can_withdraw` returns
`self.balance() >= amount`; `SavingsAccount.can_withdraw` returns
`(self.balance() - amount) >= self.MINIMUM_BALANCE`. -/
def can_withdraw (a : Account) (amount : ℚ) : Bool :=
  match a.account_type with
  | .checking => decide (amount ≤ a.balance)
  | .savings => decide (MINIMUM_BALANCE ≤ a.balance - amount)

/-- `Account.notify_observers`: iterates the observer list calling each with
the transaction; the loop has no `try`/`except`, so the first exception
escapes. -/
def notify_observers (obs : List Observer) (t : Transaction) : Except Err Unit :=
  match obs with
  | [] => .ok ()
  | o :: rest =>
    match o t with
    | .error e => .error e
    | .ok _ => notify_observers rest t

/-- `Account.deposit` (`src/domain/accounts.py:80-92`), statement by
statement: raise on `amount <= 0`; `update_balance(amount)`; construct the
`Transaction` (which could raise, leaving the balance updated); append it;
`notify_observers` (which can raise, leaving balance and history updated);
return the transaction. The returned pair is (account state after the call,
result or exception). -/
def Account.deposit (a : Account) (amount : ℚ) (ts : Nat) :
    Account × Except Err Transaction :=
  if amount ≤ 0 then
    (a, .error .invalidAmount)
  else
    let a1 := { a with balance := a.balance + amount }
    match mkTransaction .deposit amount a.account_id ts none none with
    | .error e => (a1, .error e)
    | .ok t =>
      let a2 := { a1 with transactions := a1.transactions ++ [t] }
      match notify_observers a2.observers t with
      | .error e => (a2, .error e)
      | .ok _ => (a2, .ok t)

/-- `Account.withdraw` (`src/domain/accounts.py:94-109`): raise on
`amount <= 0`; raise when `can_withdraw(amount)` is false;
`update_balance(-amount)`; construct, append, notify, return. -/
def Account.withdraw (a : Account) (amount : ℚ) (ts : Nat) :
    Account × Except Err Transaction :=
  if amount ≤ 0 then
    (a, .error .invalidAmount)
  else if ¬ can_withdraw a amount then
    (a, .error .insufficientFunds)
  else
    let a1 := { a with balance := a.balance - amount }
    match mkTransaction .withdraw amount a.account_id ts none none with
    | .error e => (a1, .error e)
    | .ok t =>
      let a2 := { a1 with transactions := a1.transactions ++ [t] }
      match notify_observers a2.observers t with
      | .error e => (a2, .error e)
      | .ok _ => (a2, .ok t)

/-! ## The account store

`FundTransferService.transfer_funds` and `TransactionService` fetch accounts
from `AccountRepository.get_by_id` and mutate them in place. Fetching the
same id twice yields the same Python object, so two in-place mutations on
aliased names compose. We model the repository as an id-indexed map and
every `update_balance` / `append` as a store update at that id, which
reproduces the aliasing semantics exactly. -/

/-- The account repository contents: accounts indexed by id (lookups of ids
assumed present, as every claim does). -/
def Store : Type := String → Account

/-- Update the account at one id. -/
def storeSet (s : Store) (id : String) (f : Account → Account) : Store :=
  fun x => if x = id then f (s x) else s x

/-- `Account.transfer` (`src/domain/accounts.py:111-132`) called on the
account at `srcId` with the account at `dstId` as destination, statement by
statement: raise on `amount <= 0`; raise when the source's `can_withdraw`
is false; `self.update_balance(-amount)`;
`destination_account.update_balance(amount)`; construct the transfer
`Transaction` (raises when either id is falsy, leaving both balances
mutated); append it to the source history, then to the destination history;
notify the source's observers; return it. There is no check that the
destination differs from the source. -/
def transferS (s : Store) (srcId dstId : String) (amount : ℚ) (ts : Nat) :
    Store × Except Err Transaction :=
  if amount ≤ 0 then
    (s, .error .invalidAmount)
  else if ¬ can_withdraw (s srcId) amount then
    (s, .error .insufficientFunds)
  else
    let s1 := storeSet s srcId (fun a => { a with balance := a.balance - amount })
    let s2 := storeSet s1 dstId (fun a => { a with balance := a.balance + amount })
    match mkTransaction .transfer amount (s srcId).account_id ts
        (some (s srcId).account_id) (some (s dstId).account_id) with
    | .error e => (s2, .error e)
    | .ok t =>
      let s3 := storeSet s2 srcId (fun a => { a with transactions := a.transactions ++ [t] })
      let s4 := storeSet s3 dstId (fun a => { a with transactions := a.transactions ++ [t] })
      match notify_observers (s4 srcId).observers t with
      | .error e => (s4, .error e)
      | .ok _ => (s4, .ok t)

/-! ## Interest strategies (`src/domain/interest.py`)

Dates are whole-day datetimes modelled by their day number, so Python's
`(end_date - start_date).days` is `end_date - start_date` on `ℤ` (and is
negative when `end_date` precedes `start_date`). -/

/-- `SavingsInterestStrategy` (default `annual_rate = 0.025`). -/
structure SavingsInterestStrategy where
  annual_rate : ℚ := 1 / 40

/-- `SavingsInterestStrategy.calculate_interest`:
`days = (end_date - start_date).days; daily_rate = annual_rate / 365;
return balance * daily_rate * days`. No branch turns a negative `days`
into zero. -/
def SavingsInterestStrategy.calculate_interest (strat : SavingsInterestStrategy)
    (balance : ℚ) (start_date end_date : ℤ) : ℚ :=
  let days : ℤ := end_date - start_date
  let daily_rate := strat.annual_rate / 365
  balance * daily_rate * (days : ℚ)

/-- `DynamicInterestStrategy`: resolves the annual rate from an interest
repository keyed by account type, then applies the same formula. The
repository is modelled as the resolved rate table. -/
structure DynamicInterestStrategy where
  interest_repository : String → ℚ
  account_type : String

/-- `DynamicInterestStrategy.calculate_interest`: same body with the
looked-up rate. -/
def DynamicInterestStrategy.calculate_interest (strat : DynamicInterestStrategy)
    (balance : ℚ) (start_date end_date : ℤ) : ℚ :=
  let annual_rate := strat.interest_repository strat.account_type
  let days : ℤ := end_date - start_date
  let daily_rate := annual_rate / 365
  balance * daily_rate * (days : ℚ)

/-! ## Limit enforcement
(`src/application/services/limit_enforcement_service.py`) -/

/-- The per-account constraints row the service reads through
`IAccountConstraintsRepository.get_limits` / `get_usage` and writes through
`update_usage`. -/
structure AccountConstraints where
  daily_limit : ℚ
  monthly_limit : ℚ
  daily_usage : ℚ
  monthly_usage : ℚ
  deriving DecidableEq, Repr

/-- `LimitEnforcementService.check_limit` (lines 49-91): raise
`LimitExceeded(daily)` when `daily_usage + amount > daily_limit`; otherwise
raise `LimitExceeded(monthly)` when `monthly_usage + amount > monthly_limit`;
otherwise record `amount` into both the daily and the monthly usage and
return `True`. Nothing is recorded on either failure. -/
def check_limit (c : AccountConstraints) (transaction_amount : ℚ) :
    AccountConstraints × Except Err Bool :=
  if c.daily_usage + transaction_amount > c.daily_limit then
    (c, .error .limitDaily)
  else if c.monthly_usage + transaction_amount > c.monthly_limit then
    (c, .error .limitMonthly)
  else
    ({ c with daily_usage := c.daily_usage + transaction_amount,
              monthly_usage := c.monthly_usage + transaction_amount },
     .ok true)

/-! ## Operation sequences over the store -/

/-- `TransactionService.deposit` reaching the domain call: fetch the account
at `id`, run `Account.deposit` in place. -/
def depositS (s : Store) (id : String) (amount : ℚ) (ts : Nat) :
    Store × Except Err Transaction :=
  let r := (s id).deposit amount ts
  (storeSet s id (fun _ => r.1), r.2)

/-- `TransactionService.withdraw` reaching the domain call. -/
def withdrawS (s : Store) (id : String) (amount : ℚ) (ts : Nat) :
    Store × Except Err Transaction :=
  let r := (s id).withdraw amount ts
  (storeSet s id (fun _ => r.1), r.2)

/-- One ledger-mutating request against the store. -/
inductive Op where
  | dep (id : String) (amount : ℚ) (ts : Nat)
  | wd (id : String) (amount : ℚ) (ts : Nat)
  | tr (srcId dstId : String) (amount : ℚ) (ts : Nat)

/-- The store after one request (failed requests leave exactly the state the
Python objects hold when the exception escapes). -/
def applyOp (s : Store) : Op → Store
  | .dep id amount ts => (depositS s id amount ts).1
  | .wd id amount ts => (withdrawS s id amount ts).1
  | .tr srcId dstId amount ts => (transferS s srcId dstId amount ts).1

/-- The store after a sequence of requests. -/
def run (s : Store) : List Op → Store
  | [] => s
  | op :: ops => run (applyOp s op) ops

/-- The account-kind balance rule: `balance >= 0` for a checking account,
`balance >= MINIMUM_BALANCE` for a savings account. -/
def satisfiesRule (a : Account) : Prop :=
  match a.account_type with
  | .checking => 0 ≤ a.balance
  | .savings => MINIMUM_BALANCE ≤ a.balance

/-! ## Helper lemmas on the post-states of the operations -/

lemma mkTransaction_nontransfer_pos {ty : TransactionType} (hty : ty ≠ .transfer)
    {amount : ℚ} (h : 0 < amount) (id : String) (ts : Nat) (src dst : Option String) :
    mkTransaction ty amount id ts src dst =
      .ok { transaction_type := ty, amount, account_id := id, timestamp := ts,
            transaction_id := mkTransactionId ts,
            source_account_id := src, destination_account_id := dst } := by
  simp [mkTransaction, not_le.mpr h, hty]

lemma deposit_fst_of_nonpos {a : Account} {amount : ℚ} (h : amount ≤ 0) (ts : Nat) :
    (a.deposit amount ts).1 = a := by
  simp [Account.deposit, h]

lemma deposit_fst_of_pos {a : Account} {amount : ℚ} (h : 0 < amount) (ts : Nat) :
    (a.deposit amount ts).1 =
      { a with balance := a.balance + amount,
               transactions := a.transactions ++
                 [{ transaction_type := .deposit, amount,
                    account_id := a.account_id, timestamp := ts,
                    transaction_id := mkTransactionId ts }] } := by
  rw [Account.deposit]
  rw [mkTransaction_nontransfer_pos (by simp) h]
  simp only [if_neg (not_le.mpr h)]
  rcases hn : notify_observers _ _ with e | u <;> simp [hn]

lemma withdraw_fst_of_fail {a : Account} {amount : ℚ} (ts : Nat)
    (h : amount ≤ 0 ∨ can_withdraw a amount = false) :
    (a.withdraw amount ts).1 = a := by
  rcases h with h | h
  · simp [Account.withdraw, h]
  · rcases le_or_lt amount 0 with h0 | h0
    · simp [Account.withdraw, h0]
    · simp [Account.withdraw, not_le.mpr h0, h]

lemma withdraw_fst_of_ok {a : Account} {amount : ℚ} (h : 0 < amount)
    (hc : can_withdraw a amount = true) (ts : Nat) :
    (a.withdraw amount ts).1 =
      { a with balance := a.balance - amount,
               transactions := a.transactions ++
                 [{ transaction_type := .withdraw, amount,
                    account_id := a.account_id, timestamp := ts,
                    transaction_id := mkTransactionId ts }] } := by
  rw [Account.withdraw]
  rw [mkTransaction_nontransfer_pos (by simp) h]
  simp only [if_neg (not_le.mpr h), hc, Bool.not_true, if_neg]
  rcases hn : notify_observers _ _ with e | u <;> simp [hn]

lemma transferS_fst_of_fail {s : Store} {srcId dstId : String} {amount : ℚ} (ts : Nat)
    (h : amount ≤ 0 ∨ can_withdraw (s srcId) amount = false) :
    (transferS s srcId dstId amount ts).1 = s := by
  rcases h with h | h
  · simp [transferS, h]
  · rcases le_or_lt amount 0 with h0 | h0
    · simp [transferS, h0]
    · simp [transferS, not_le.mpr h0, h]

lemma storeSet_apply (s : Store) (id : String) (f : Account → Account) (x : String) :
    storeSet s id f x = if x = id then f (s x) else s x := rfl

lemma transferS_balance (s : Store) (srcId dstId : String) {amount : ℚ}
    (h : 0 < amount) (hc : can_withdraw (s srcId) amount = true) (ts : Nat) (x : String) :
    ((transferS s srcId dstId amount ts).1 x).balance =
      if x = dstId then
        (if x = srcId then (s x).balance - amount else (s x).balance) + amount
      else if x = srcId then (s x).balance - amount
      else (s x).balance := by
  rw [transferS]
  simp only [if_neg (not_le.mpr h), hc, not_true, ite_false, Bool.not_true,
    Bool.false_eq_true, if_neg, not_false_iff]
  split
  · simp only [storeSet_apply]
    split_ifs <;> simp
  · split <;>
      (simp only [storeSet_apply]; split_ifs <;> simp)

lemma transferS_account_type (s : Store) (srcId dstId : String) (amount : ℚ)
    (ts : Nat) (x : String) :
    ((transferS s srcId dstId amount ts).1 x).account_type = (s x).account_type := by
  rw [transferS]
  split
  · rfl
  · split
    · rfl
    · dsimp only
      split
      · simp only [storeSet_apply]
        split_ifs <;> simp
      · split <;>
          (simp only [storeSet_apply]; split_ifs <;> simp)

lemma satisfiesRule_of_le {a b : Account} (hty : b.account_type = a.account_type)
    (hbal : a.balance ≤ b.balance) (h : satisfiesRule a) : satisfiesRule b := by
  rcases ht : a.account_type with _ | _ <;>
    simp [satisfiesRule, hty, ht] at h ⊢ <;> linarith

lemma satisfiesRule_sub {a : Account} {amount : ℚ} (hc : can_withdraw a amount = true)
    {b : Account} (hty : b.account_type = a.account_type)
    (hbal : b.balance = a.balance - amount) : satisfiesRule b := by
  rcases ht : a.account_type with _ | _
  · simp [can_withdraw, ht] at hc
    simp [satisfiesRule, hty, ht, hbal]
    linarith
  · simp [can_withdraw, ht, MINIMUM_BALANCE] at hc
    simp [satisfiesRule, MINIMUM_BALANCE, hty, ht, hbal]
    linarith

lemma depositS_preserves (s : Store) (id : String) (amount : ℚ) (ts : Nat)
    (h : ∀ x, satisfiesRule (s x)) :
    ∀ x, satisfiesRule ((depositS s id amount ts).1 x) := by
  intro x
  by_cases hx : x = id
  · subst hx
    rcases le_or_lt amount 0 with h0 | h0
    · simpa [depositS, storeSet_apply, deposit_fst_of_nonpos h0] using h x
    · have hpost := deposit_fst_of_pos (a := s x) h0 ts
      have happ : (depositS s x amount ts).1 x = ((s x).deposit amount ts).1 := by
        simp [depositS, storeSet_apply]
      rw [happ, hpost]
      exact satisfiesRule_of_le (a := s x) rfl (by simp [le_of_lt h0]) (h x)
  · simpa [depositS, storeSet_apply, hx] using h x

lemma withdrawS_preserves (s : Store) (id : String) (amount : ℚ) (ts : Nat)
    (h : ∀ x, satisfiesRule (s x)) :
    ∀ x, satisfiesRule ((withdrawS s id amount ts).1 x) := by
  intro x
  by_cases hx : x = id
  · subst hx
    rcases le_or_lt amount 0 with h0 | h0
    · simpa [withdrawS, storeSet_apply, withdraw_fst_of_fail ts (Or.inl h0)] using h x
    · rcases hcw : can_withdraw (s x) amount with _ | _
      · simpa [withdrawS, storeSet_apply, withdraw_fst_of_fail ts (Or.inr hcw)] using h x
      · have hpost := withdraw_fst_of_ok h0 hcw ts
        have happ : (withdrawS s x amount ts).1 x = ((s x).withdraw amount ts).1 := by
          simp [withdrawS, storeSet_apply]
        rw [happ, hpost]
        exact satisfiesRule_sub hcw rfl rfl
  · simpa [withdrawS, storeSet_apply, hx] using h x

lemma transferS_preserves (s : Store) (srcId dstId : String) (amount : ℚ) (ts : Nat)
    (h : ∀ x, satisfiesRule (s x)) :
    ∀ x, satisfiesRule ((transferS s srcId dstId amount ts).1 x) := by
  intro x
  rcases le_or_lt amount 0 with h0 | h0
  · rw [transferS_fst_of_fail ts (Or.inl h0)]; exact h x
  rcases hcw : can_withdraw (s srcId) amount with _ | _
  · rw [transferS_fst_of_fail ts (Or.inr hcw)]; exact h x
  have hb := transferS_balance s srcId dstId h0 hcw ts x
  have ht := transferS_account_type s srcId dstId amount ts x
  by_cases hd : x = dstId <;> by_cases hs : x = srcId
  · rw [if_pos hd, if_pos hs] at hb
    exact satisfiesRule_of_le ht (le_of_eq (by rw [hb]; ring)) (h x)
  · rw [if_pos hd, if_neg hs] at hb
    exact satisfiesRule_of_le ht (by rw [hb]; linarith) (h x)
  · rw [if_neg hd, if_pos hs] at hb
    exact satisfiesRule_sub (hs ▸ hcw) (hs ▸ ht) (hs ▸ hb)
  · rw [if_neg hd, if_neg hs] at hb
    exact satisfiesRule_of_le ht (le_of_eq hb.symm) (h x)

lemma applyOp_preserves (s : Store) (op : Op) (h : ∀ x, satisfiesRule (s x)) :
    ∀ x, satisfiesRule (applyOp s op x) := by
  cases op with
  | dep id amount ts => exact depositS_preserves s id amount ts h
  | wd id amount ts => exact withdrawS_preserves s id amount ts h
  | tr srcId dstId amount ts => exact transferS_preserves s srcId dstId amount ts h

/-! ## Injectivity of the rendered timestamp

`transaction_id` is the string `txn_` followed by the rendered timestamp, so
ids of transactions with distinct timestamps differ iff rendering a natural
number is injective. We prove that `Nat.repr` (the `ToString Nat` instance)
is injective. -/

lemma digitChar_inj_of_lt {a b : Nat} (ha : a < 10) (hb : b < 10)
    (h : Nat.digitChar a = Nat.digitChar b) : a = b := by
  interval_cases a <;> interval_cases b <;> simp_all [Nat.digitChar]

lemma map_digitChar_inj {l1 l2 : List Nat} (h1 : ∀ d ∈ l1, d < 10)
    (h2 : ∀ d ∈ l2, d < 10)
    (h : l1.map Nat.digitChar = l2.map Nat.digitChar) : l1 = l2 := by
  induction l1 generalizing l2 with
  | nil => cases l2 <;> simp_all
  | cons a t ih =>
    cases l2 with
    | nil => simp_all
    | cons b t2 =>
      simp only [List.map_cons, List.cons.injEq] at h
      have hab := digitChar_inj_of_lt (h1 a (by simp)) (h2 b (by simp)) h.1
      rw [hab, ih (fun d hd => h1 d (by simp [hd])) (fun d hd => h2 d (by simp [hd])) h.2]

lemma toDigitsCore_eq (fuel : Nat) : ∀ (n : Nat) (acc : List Char), 0 < n →
    n < 10 ^ fuel →
    Nat.toDigitsCore 10 fuel n acc = ((Nat.digits 10 n).map Nat.digitChar).reverse ++ acc := by
  induction fuel with
  | zero =>
    intro n acc hn hfuel
    simp at hfuel
    omega
  | succ fuel ih =>
    intro n acc hn hfuel
    rw [Nat.toDigitsCore]
    by_cases hdiv : n / 10 = 0
    · have h10 : n < 10 := by omega
      simp only [hdiv, if_pos]
      rw [Nat.digits_def' (by norm_num : (1:ℕ) < 10) hn, hdiv, Nat.digits_zero,
        Nat.mod_eq_of_lt h10]
      simp
    · have hpos : 0 < n / 10 := Nat.pos_of_ne_zero hdiv
      have hlt : n / 10 < 10 ^ fuel := by
        rw [Nat.div_lt_iff_lt_mul (by norm_num : (0:ℕ) < 10)]
        calc n < 10 ^ (fuel + 1) := hfuel
        _ = 10 ^ fuel * 10 := by ring
      simp only [if_neg hdiv]
      rw [ih (n / 10) _ hpos hlt,
        Nat.digits_def' (by norm_num : (1:ℕ) < 10) hn]
      simp

lemma Nat.repr_injective : Function.Injective Nat.repr := by
  intro m n h
  have hself : ∀ k : Nat, k < 10 ^ (k + 1) := fun k =>
    lt_of_lt_of_le (Nat.lt_pow_self (by norm_num) k)
      (Nat.pow_le_pow_right (by norm_num) (Nat.le_succ k))
  have hrepr : ∀ k : Nat, 0 < k →
      Nat.repr k = (((Nat.digits 10 k).map Nat.digitChar).reverse ++ []).asString := by
    intro k hk
    rw [Nat.repr, Nat.toDigits, toDigitsCore_eq (k + 1) k [] hk (hself k)]
  rcases Nat.eq_zero_or_pos m with hm | hm <;> rcases Nat.eq_zero_or_pos n with hn | hn
  · omega
  · exfalso
    subst hm
    rw [hrepr n hn] at h
    have hlist : ['0'] = ((Nat.digits 10 n).map Nat.digitChar).reverse ++ [] := by
      have : Nat.repr 0 = List.asString ['0'] := rfl
      rw [this] at h
      exact List.asString_inj.mp h
    rcases hd : Nat.digits 10 n with _ | ⟨d, rest⟩
    · rw [hd] at hlist
      simp at hlist
    · rw [hd] at hlist
      simp only [List.map_cons, List.reverse_cons, List.append_nil] at hlist
      have hlen := congrArg List.length hlist
      simp at hlen
      subst hlen
      simp at hlist
      have hdlt : d < 10 :=
        Nat.digits_lt_base (by norm_num) (by rw [hd]; simp)
      have hd0 : d = 0 := by
        have : Nat.digitChar d = Nat.digitChar 0 := by
          rw [show Nat.digitChar 0 = '0' from rfl, ← hlist]
        exact digitChar_inj_of_lt hdlt (by norm_num) this
      subst hd0
      have := Nat.ofDigits_digits 10 n
      rw [hd] at this
      simp [Nat.ofDigits] at this
      omega
  · exfalso
    subst hn
    rw [hrepr m hm] at h
    have hlist : ((Nat.digits 10 m).map Nat.digitChar).reverse ++ [] = ['0'] := by
      have : Nat.repr 0 = List.asString ['0'] := rfl
      rw [this] at h
      exact List.asString_inj.mp h
    rcases hd : Nat.digits 10 m with _ | ⟨d, rest⟩
    · rw [hd] at hlist
      simp at hlist
    · rw [hd] at hlist
      simp only [List.map_cons, List.reverse_cons, List.append_nil] at hlist
      have hlen := congrArg List.length hlist
      simp at hlen
      subst hlen
      simp at hlist
      have hdlt : d < 10 :=
        Nat.digits_lt_base (by norm_num) (by rw [hd]; simp)
      have hd0 : d = 0 := by
        have : Nat.digitChar d = Nat.digitChar 0 := by
          rw [show Nat.digitChar 0 = '0' from rfl, ← hlist]
        exact digitChar_inj_of_lt hdlt (by norm_num) this
      subst hd0
      have := Nat.ofDigits_digits 10 m
      rw [hd] at this
      simp [Nat.ofDigits] at this
      omega
  · rw [hrepr m hm, hrepr n hn] at h
    have hlist := List.asString_inj.mp h
    simp only [List.append_nil] at hlist
    have hmap := List.reverse_injective hlist
    have hdig := map_digitChar_inj
      (fun d hd => Nat.digits_lt_base (by norm_num) hd)
      (fun d hd => Nat.digits_lt_base (by norm_num) hd) hmap
    exact Nat.digits_inj_iff.mp hdig

lemma string_append_left_cancel {p s t : String} (h : p ++ s = p ++ t) : s = t := by
  have hd : p.data ++ s.data = p.data ++ t.data := congrArg String.data h
  have := List.append_cancel_left hd
  cases s
  cases t
  exact congrArg String.mk this

lemma mkTransactionId_injective : Function.Injective mkTransactionId := by
  intro a b h
  unfold mkTransactionId at h
  exact Nat.repr_injective (string_append_left_cancel h)

lemma notify_observers_ok {obs : List Observer}
    (hobs : ∀ o ∈ obs, ∀ t, o t = .ok ()) (t : Transaction) :
    notify_observers obs t = .ok () := by
  induction obs with
  | nil => rfl
  | cons o rest ih =>
    rw [notify_observers, hobs o (by simp)]
    exact ih (fun o ho t => hobs o (by simp [ho]) t)

lemma mkTransaction_transfer_ok {amount : ℚ} (h : 0 < amount) (aid : String)
    (ts : Nat) {src dst : String} (hsrc : src ≠ "") (hdst : dst ≠ "") :
    mkTransaction .transfer amount aid ts (some src) (some dst) =
      .ok { transaction_type := .transfer, amount, account_id := aid,
            timestamp := ts, transaction_id := mkTransactionId ts,
            source_account_id := some src, destination_account_id := some dst } := by
  simp [mkTransaction, not_le.mpr h, truthyStr, hsrc, hdst]

/-! ## Concrete fixtures used by witnesses and counterexamples -/

/-- A fresh account with empty history and no observers. -/
def acct (id : String) (ty : AccountType) (bal : ℚ) : Account :=
  { account_id := id, account_type := ty, balance := bal, status := .active,
    creation_date := 0, transactions := [], observers := [],
    accrued_interest := 0 }

/-- A repository with checking account `A` (balance 500), checking `B`
(balance 300) and savings `S` (balance 150). -/
def demoStore : Store := fun x =>
  if x = "B" then acct "B" .checking 300
  else if x = "S" then acct "S" .savings 150
  else acct "A" .checking 500

lemma demoStore_rule : ∀ x, satisfiesRule (demoStore x) := by
  intro x
  by_cases hb : x = "B"
  · simp [demoStore, hb, acct, satisfiesRule]
  · by_cases hs : x = "S" <;>
      simp [demoStore, hb, hs, acct, satisfiesRule, MINIMUM_BALANCE] <;>
      norm_num

/-! ## Claim theorems -/

/-- C1: for every transfer of amount `a` between two distinct accounts that
succeeds (`a` positive and the source's `can_withdraw` accepts it), the
source balance decreases by exactly `a`, the destination balance increases
by exactly `a`, and their sum is conserved. -/
theorem transfer_conserves_total_funds (s : Store) (srcId dstId : String)
    (amount : ℚ) (ts : Nat) (hne : srcId ≠ dstId) (h : 0 < amount)
    (hc : can_withdraw (s srcId) amount = true) :
    ((transferS s srcId dstId amount ts).1 srcId).balance =
      (s srcId).balance - amount ∧
    ((transferS s srcId dstId amount ts).1 dstId).balance =
      (s dstId).balance + amount ∧
    ((transferS s srcId dstId amount ts).1 srcId).balance +
        ((transferS s srcId dstId amount ts).1 dstId).balance =
      (s srcId).balance + (s dstId).balance := by
  have h1 := transferS_balance s srcId dstId h hc ts srcId
  have h2 := transferS_balance s srcId dstId h hc ts dstId
  simp only [if_neg hne, if_pos rfl, if_neg (Ne.symm hne), ite_true, ite_false] at h1 h2
  refine ⟨h1, h2, ?_⟩
  rw [h1, h2]
  ring

/-- Witness for C1 at a concrete repository: transferring 200 from checking
`A` (500) to checking `B` (300). -/
theorem transfer_conserves_total_funds_witness :
    ((transferS demoStore "A" "B" 200 1).1 "A").balance =
      (demoStore "A").balance - 200 ∧
    ((transferS demoStore "A" "B" 200 1).1 "B").balance =
      (demoStore "B").balance + 200 ∧
    ((transferS demoStore "A" "B" 200 1).1 "A").balance +
        ((transferS demoStore "A" "B" 200 1).1 "B").balance =
      (demoStore "A").balance + (demoStore "B").balance :=
  transfer_conserves_total_funds demoStore "A" "B" 200 1 (by decide)
    (by norm_num) (by decide)

/-- C2: if every account in the repository satisfies its kind rule
(`balance >= 0` for checking, `balance >= MINIMUM_BALANCE` for savings),
then after any sequence of deposit / withdraw / transfer requests — in
particular after any successful withdrawal, and a fortiori after any
sequence of successful operations — every account still satisfies its kind
rule. -/
theorem kind_rule_invariant (s : Store) (h : ∀ x, satisfiesRule (s x))
    (ops : List Op) : ∀ x, satisfiesRule (run s ops x) := by
  induction ops generalizing s with
  | nil => exact h
  | cons op ops ih => exact ih _ (applyOp_preserves s op h)

/-- Witness for C2: after a withdrawal, a deposit and a transfer on the
demo repository, the savings account `S` still satisfies its rule. -/
theorem kind_rule_invariant_witness :
    satisfiesRule
      (run demoStore [Op.wd "S" 40 1, Op.dep "B" 50 2, Op.tr "A" "B" 25 3] "S") :=
  kind_rule_invariant demoStore demoStore_rule
    [Op.wd "S" 40 1, Op.dep "B" 50 2, Op.tr "A" "B" 25 3] "S"

/-- The Transaction a successful `Account.deposit` constructs. -/
def depTxn (a : Account) (amount : ℚ) (ts : Nat) : Transaction :=
  { transaction_type := .deposit, amount, account_id := a.account_id,
    timestamp := ts, transaction_id := mkTransactionId ts }

/-- The Transaction a successful `Account.withdraw` constructs. -/
def wdTxn (a : Account) (amount : ℚ) (ts : Nat) : Transaction :=
  { transaction_type := .withdraw, amount, account_id := a.account_id,
    timestamp := ts, transaction_id := mkTransactionId ts }

/-- The Transaction a successful `Account.transfer` constructs. -/
def trTxn (s : Store) (srcId dstId : String) (amount : ℚ) (ts : Nat) :
    Transaction :=
  { transaction_type := .transfer, amount, account_id := (s srcId).account_id,
    timestamp := ts, transaction_id := mkTransactionId ts,
    source_account_id := some (s srcId).account_id,
    destination_account_id := some (s dstId).account_id }

lemma mkTransaction_depTxn (a : Account) {amount : ℚ} (ts : Nat) (h : 0 < amount) :
    mkTransaction .deposit amount a.account_id ts none none =
      .ok (depTxn a amount ts) := by
  rw [mkTransaction_nontransfer_pos (by simp) h]
  rfl

lemma mkTransaction_wdTxn (a : Account) {amount : ℚ} (ts : Nat) (h : 0 < amount) :
    mkTransaction .withdraw amount a.account_id ts none none =
      .ok (wdTxn a amount ts) := by
  rw [mkTransaction_nontransfer_pos (by simp) h]
  rfl

lemma mkTransaction_trTxn (s : Store) (srcId dstId : String) {amount : ℚ}
    (ts : Nat) (h : 0 < amount) (hsrc : (s srcId).account_id ≠ "")
    (hdst : (s dstId).account_id ≠ "") :
    mkTransaction .transfer amount (s srcId).account_id ts
      (some (s srcId).account_id) (some (s dstId).account_id) =
      .ok (trTxn s srcId dstId amount ts) := by
  rw [mkTransaction_transfer_ok h (s srcId).account_id ts hsrc hdst]
  rfl

lemma deposit_ok {a : Account} {amount : ℚ} (h : 0 < amount) (ts : Nat)
    (hobs : ∀ o ∈ a.observers, ∀ t, o t = .ok ()) :
    a.deposit amount ts =
      ({ a with balance := a.balance + amount,
                transactions := a.transactions ++ [depTxn a amount ts] },
       .ok (depTxn a amount ts)) := by
  rw [Account.deposit, mkTransaction_depTxn a ts h]
  simp only [if_neg (not_le.mpr h)]
  rw [notify_observers_ok hobs]

lemma withdraw_ok {a : Account} {amount : ℚ} (h : 0 < amount)
    (hc : can_withdraw a amount = true) (ts : Nat)
    (hobs : ∀ o ∈ a.observers, ∀ t, o t = .ok ()) :
    a.withdraw amount ts =
      ({ a with balance := a.balance - amount,
                transactions := a.transactions ++ [wdTxn a amount ts] },
       .ok (wdTxn a amount ts)) := by
  rw [Account.withdraw, mkTransaction_wdTxn a ts h]
  simp only [if_neg (not_le.mpr h), hc, Bool.not_true, not_false_iff,
    if_neg, ite_false]
  rw [notify_observers_ok hobs]
  simp

lemma transferS_eq_ok (s : Store) (srcId dstId : String) {amount : ℚ} (ts : Nat)
    (h : 0 < amount) (hc : can_withdraw (s srcId) amount = true)
    (hsrc : (s srcId).account_id ≠ "") (hdst : (s dstId).account_id ≠ "")
    (hobs : ∀ o ∈ (s srcId).observers, ∀ t, o t = .ok ()) :
    transferS s srcId dstId amount ts =
      (storeSet (storeSet (storeSet (storeSet s
          srcId (fun a => { a with balance := a.balance - amount }))
          dstId (fun a => { a with balance := a.balance + amount }))
          srcId (fun a =>
            { a with transactions :=
                a.transactions ++ [trTxn s srcId dstId amount ts] }))
          dstId (fun a =>
            { a with transactions :=
                a.transactions ++ [trTxn s srcId dstId amount ts] }),
       .ok (trTxn s srcId dstId amount ts)) := by
  rw [transferS]
  simp only [if_neg (not_le.mpr h), hc, Bool.not_true, not_false_iff,
    if_neg, ite_false]
  rw [mkTransaction_trTxn s srcId dstId ts h hsrc hdst]
  dsimp only
  simp only [storeSet_apply, apply_ite Account.observers, ite_self]
  rw [notify_observers_ok hobs]
  simp

/-- A checking account whose status is Closed, balance 10. -/
def closedAcct : Account :=
  { account_id := "C", account_type := .checking, balance := 10,
    status := .closed, creation_date := 0, transactions := [], observers := [],
    accrued_interest := 0 }

/-- A repository holding the Closed account `C` and checking `B`. -/
def closedStore : Store := fun x =>
  if x = "B" then acct "B" .checking 300 else closedAcct

/-- C3: the spec requires every mutating operation on a Closed account to
fail with `AccountInactive`, but no status check exists anywhere in
`Account.deposit` / `withdraw` / `transfer`: on the Closed account `C`
(balance 10), a deposit of 50 succeeds and sets the balance to 60, a
withdrawal of 5 succeeds and sets the balance to 5, and a transfer of 5 to
`B` succeeds as well. -/
theorem closed_account_mutation_succeeds :
    closedAcct.status = .closed ∧
    (closedAcct.deposit 50 7).2.isOk = true ∧
    (closedAcct.deposit 50 7).1.balance = 60 ∧
    (closedAcct.withdraw 5 8).2.isOk = true ∧
    (closedAcct.withdraw 5 8).1.balance = 5 ∧
    (transferS closedStore "C" "B" 5 9).2.isOk = true := by
  have hobs : ∀ o ∈ closedAcct.observers, ∀ t, o t = .ok () := by
    intro o ho
    simp [closedAcct] at ho
  have hdep := deposit_ok (a := closedAcct) (by norm_num : (0:ℚ) < 50) 7 hobs
  have hwd := withdraw_ok (a := closedAcct) (by norm_num : (0:ℚ) < 5)
    (by rfl) 8 hobs
  have htr := transferS_eq_ok closedStore "C" "B" 9
    (by norm_num : (0:ℚ) < 5) (by rfl) (by decide) (by decide)
    (by intro o ho; simp [closedStore, closedAcct] at ho)
  refine ⟨rfl, ?_, ?_, ?_, ?_, ?_⟩
  · rw [hdep]
    rfl
  · rw [hdep]
    show closedAcct.balance + 50 = 60
    norm_num [closedAcct]
  · rw [hwd]
    rfl
  · rw [hwd]
    show closedAcct.balance - 5 = 5
    norm_num [closedAcct]
  · rw [htr]
    rfl

/-- A constraints row: daily limit 1000 with usage 900, monthly limit 5000
with usage 2000 (spec §8 scenario). -/
def demoLimits : AccountConstraints :=
  { daily_limit := 1000, monthly_limit := 5000,
    daily_usage := 900, monthly_usage := 2000 }

/-- C4: `check_limit` raises the daily error exactly when
`daily_usage + amount > daily_limit`; otherwise it raises the monthly error
exactly when `monthly_usage + amount > monthly_limit` (so the daily
boundary is checked first); when both sums are at or below their limits —
including exactly at the boundary — it records the amount into both usage
counters and returns `True`; and on any failure no usage is recorded. -/
theorem check_limit_spec (c : AccountConstraints) (amount : ℚ) :
    ((check_limit c amount).2 = .error .limitDaily ↔
      c.daily_limit < c.daily_usage + amount) ∧
    ((check_limit c amount).2 = .error .limitMonthly ↔
      (c.daily_usage + amount ≤ c.daily_limit ∧
        c.monthly_limit < c.monthly_usage + amount)) ∧
    (c.daily_usage + amount ≤ c.daily_limit →
      c.monthly_usage + amount ≤ c.monthly_limit →
      check_limit c amount =
        ({ c with daily_usage := c.daily_usage + amount,
                  monthly_usage := c.monthly_usage + amount }, .ok true)) ∧
    ((check_limit c amount).2 ≠ .ok true → (check_limit c amount).1 = c) := by
  rcases le_or_lt (c.daily_usage + amount) c.daily_limit with hd | hd
  · rcases le_or_lt (c.monthly_usage + amount) c.monthly_limit with hm | hm
    · simp [check_limit, not_lt.mpr hd, not_lt.mpr hm]
    · simp [check_limit, not_lt.mpr hd, hm, hm.not_le, hd]
  · simp [check_limit, hd, hd.not_le]

/-- Witness for C4 at the spec §8 scenario: usage 900 of limit 1000 —
100 is accepted reaching the boundary exactly, 150 is rejected with the
daily error. -/
theorem check_limit_spec_witness :
    check_limit demoLimits 100 =
      ({ demoLimits with daily_usage := demoLimits.daily_usage + 100,
                         monthly_usage := demoLimits.monthly_usage + 100 },
       .ok true) ∧
    (check_limit demoLimits 150).2 = .error .limitDaily :=
  ⟨(check_limit_spec demoLimits 100).2.2.1 (by norm_num [demoLimits])
      (by norm_num [demoLimits]),
   ((check_limit_spec demoLimits 150).1).mpr (by norm_num [demoLimits])⟩

/-- The fixed-rate strategy with annual rate 365 (so one day of interest on
balance 1 is exactly 1). -/
def unitRateStrategy : SavingsInterestStrategy := { annual_rate := 365 }

/-- C5 counterexample: the claim says the calculation "returns exactly zero
whenever endDate <= startDate"; with `end_date` one day before
`start_date`, balance 1 and annual rate 365, the code returns -1, which is
not 0 (and is negative). -/
theorem calculate_interest_negative_cex :
    unitRateStrategy.calculate_interest 1 10 9 = -1 ∧ ((-1 : ℚ) ≠ 0) := by
  constructor
  · norm_num [unitRateStrategy, SavingsInterestStrategy.calculate_interest]
  · norm_num

/-- C5 amended: the fixed-rate calculation always returns
`balance * (annualRate / 365) * (endDate - startDate)` with no truncation:
it is zero when `endDate = startDate`, but when `endDate < startDate` (and
balance and rate are positive) it is strictly negative rather than zero. -/
theorem calculate_interest_formula (strat : SavingsInterestStrategy)
    (balance : ℚ) (s e : ℤ) :
    strat.calculate_interest balance s e =
      balance * (strat.annual_rate / 365) * ((e - s : ℤ) : ℚ) ∧
    (e = s → strat.calculate_interest balance s e = 0) ∧
    (e < s → 0 < balance → 0 < strat.annual_rate →
      strat.calculate_interest balance s e < 0) := by
  refine ⟨rfl, ?_, ?_⟩
  · intro he
    subst he
    simp [SavingsInterestStrategy.calculate_interest]
  · intro hlt hb hr
    unfold SavingsInterestStrategy.calculate_interest
    have hneg : ((e - s : ℤ) : ℚ) < 0 := by
      have hz : (e - s : ℤ) < 0 := by omega
      exact_mod_cast hz
    have hpos : 0 < balance * (strat.annual_rate / 365) := by positivity
    exact mul_neg_of_pos_of_neg hpos hneg

/-- Witness for C5 amended: zero exactly at `endDate = startDate`, strictly
negative one day earlier. -/
theorem calculate_interest_formula_witness :
    unitRateStrategy.calculate_interest 1 10 10 = 0 ∧
    unitRateStrategy.calculate_interest 1 10 9 < 0 :=
  ⟨(calculate_interest_formula unitRateStrategy 1 10 10).2.1 rfl,
   (calculate_interest_formula unitRateStrategy 1 10 9).2.2 (by norm_num)
     (by norm_num) (by norm_num [unitRateStrategy])⟩

/-- A repository in which every id resolves to checking account `A`
(balance 500), so source and destination of a transfer alias the same
account. -/
def selfStore : Store := fun _ => acct "A" .checking 500

/-- C6 counterexample: the claim says a transfer whose destination id
equals the source id fails with `TransferSameAccount` and mutates nothing;
in the code there is no such check — the transfer succeeds and the transfer
transaction is appended twice to the single account's history. -/
theorem transfer_same_account_not_rejected_cex :
    (transferS selfStore "A" "A" 30 1).2.isOk = true ∧
    ((transferS selfStore "A" "A" 30 1).1 "A").transactions.length = 2 := by
  have htr := transferS_eq_ok selfStore "A" "A" 1 (by norm_num : (0:ℚ) < 30)
    (by rfl) (by decide) (by decide)
    (by intro o ho; simp [selfStore, acct] at ho)
  constructor
  · rw [htr]
    rfl
  · rw [htr]
    simp [storeSet_apply, selfStore, acct]

/-- C6 amended: neither `Account.transfer` nor the transfer services check
the destination against the source: a transfer from an account to itself
succeeds whenever the amount is positive and `can_withdraw` accepts it (and
the account id is non-empty and its observers do not raise); the debit and
credit land on the same account, leaving its balance unchanged, and the
same transfer Transaction is appended twice to its history. -/
theorem transfer_same_account_succeeds (s : Store) (id : String) (amount : ℚ)
    (ts : Nat) (h : 0 < amount) (hc : can_withdraw (s id) amount = true)
    (hid : (s id).account_id ≠ "")
    (hobs : ∀ o ∈ (s id).observers, ∀ t, o t = .ok ()) :
    (transferS s id id amount ts).2.isOk = true ∧
    ((transferS s id id amount ts).1 id).balance = (s id).balance ∧
    ((transferS s id id amount ts).1 id).transactions =
      (s id).transactions ++
        [trTxn s id id amount ts, trTxn s id id amount ts] := by
  have htr := transferS_eq_ok s id id ts h hc hid hid hobs
  rw [htr]
  refine ⟨rfl, ?_, ?_⟩
  · simp [storeSet_apply]
  · simp [storeSet_apply]

/-- Witness for C6 amended: the aliased transfer of 30 on `selfStore`. -/
theorem transfer_same_account_succeeds_witness :
    (transferS selfStore "A" "A" 30 1).2.isOk = true ∧
    ((transferS selfStore "A" "A" 30 1).1 "A").balance =
      (selfStore "A").balance ∧
    ((transferS selfStore "A" "A" 30 1).1 "A").transactions =
      (selfStore "A").transactions ++
        [trTxn selfStore "A" "A" 30 1, trTxn selfStore "A" "A" 30 1] :=
  transfer_same_account_succeeds selfStore "A" 30 1 (by norm_num) (by rfl)
    (by decide) (by intro o ho; simp [selfStore, acct] at ho)

/-- C7: constructing a `Transaction` with `amount <= 0` always fails with
the invalid-amount error, and a Transfer-typed construction succeeds
exactly when the amount is positive and both a truthy (non-`None`,
non-empty) source and destination account id are supplied. -/
theorem transaction_construction_checks (ty : TransactionType) (amount : ℚ)
    (aid : String) (ts : Nat) (src dst : Option String) :
    (amount ≤ 0 → mkTransaction ty amount aid ts src dst =
      .error .invalidAmount) ∧
    (ty = .transfer →
      ((mkTransaction ty amount aid ts src dst).isOk = true ↔
        0 < amount ∧ truthyStr src = true ∧ truthyStr dst = true)) := by
  constructor
  · intro h
    simp [mkTransaction, h]
  · intro hty
    subst hty
    rcases le_or_lt amount 0 with h0 | h0
    · simp [mkTransaction, h0, not_lt.mpr h0, Except.isOk, Except.toBool]
    · by_cases hs : truthyStr src = true <;> by_cases hd2 : truthyStr dst = true <;>
        simp [mkTransaction, not_le.mpr h0, h0, hs, hd2, Except.isOk, Except.toBool]

/-- Witness for C7: a non-positive deposit amount is rejected, and the
Transfer-typed acceptance condition instantiated where the destination id
is absent. -/
theorem transaction_construction_checks_witness :
    mkTransaction .deposit (-1) "A" 0 none none = .error .invalidAmount ∧
    ((mkTransaction .transfer 5 "A" 0 (some "X") none).isOk = true ↔
      0 < (5:ℚ) ∧ truthyStr (some "X") = true ∧ truthyStr none = true) :=
  ⟨(transaction_construction_checks .deposit (-1) "A" 0 none none).1
      (by norm_num),
   (transaction_construction_checks .transfer 5 "A" 0 (some "X") none).2 rfl⟩

lemma deposit_notify_error {a : Account} {amount : ℚ} (h : 0 < amount)
    (ts : Nat) {e : Err}
    (hn : notify_observers a.observers (depTxn a amount ts) = .error e) :
    a.deposit amount ts =
      ({ a with balance := a.balance + amount,
                transactions := a.transactions ++ [depTxn a amount ts] },
       .error e) := by
  rw [Account.deposit, mkTransaction_depTxn a ts h]
  simp only [if_neg (not_le.mpr h)]
  rw [hn]

lemma withdraw_notify_error {a : Account} {amount : ℚ} (h : 0 < amount)
    (hc : can_withdraw a amount = true) (ts : Nat) {e : Err}
    (hn : notify_observers a.observers (wdTxn a amount ts) = .error e) :
    a.withdraw amount ts =
      ({ a with balance := a.balance - amount,
                transactions := a.transactions ++ [wdTxn a amount ts] },
       .error e) := by
  rw [Account.withdraw, mkTransaction_wdTxn a ts h]
  simp only [if_neg (not_le.mpr h), hc, Bool.not_true, not_false_iff,
    if_neg, ite_false]
  rw [hn]
  simp

lemma transferS_notify_error (s : Store) (srcId dstId : String) {amount : ℚ}
    (ts : Nat) (h : 0 < amount) (hc : can_withdraw (s srcId) amount = true)
    (hsrc : (s srcId).account_id ≠ "") (hdst : (s dstId).account_id ≠ "")
    {e : Err}
    (hn : notify_observers (s srcId).observers
      (trTxn s srcId dstId amount ts) = .error e) :
    transferS s srcId dstId amount ts =
      (storeSet (storeSet (storeSet (storeSet s
          srcId (fun a => { a with balance := a.balance - amount }))
          dstId (fun a => { a with balance := a.balance + amount }))
          srcId (fun a =>
            { a with transactions :=
                a.transactions ++ [trTxn s srcId dstId amount ts] }))
          dstId (fun a =>
            { a with transactions :=
                a.transactions ++ [trTxn s srcId dstId amount ts] }),
       .error e) := by
  rw [transferS]
  simp only [if_neg (not_le.mpr h), hc, Bool.not_true, not_false_iff,
    if_neg, ite_false]
  rw [mkTransaction_trTxn s srcId dstId ts h hsrc hdst]
  dsimp only
  simp only [storeSet_apply, apply_ite Account.observers, ite_self]
  rw [hn]
  simp

/-- An observer that raises on every notification. -/
def boomObserver : Observer := fun _ => .error (.other "boom")

/-- A checking account (balance 100) with one registered observer that
raises. -/
def failObsAcct : Account :=
  { account_id := "F", account_type := .checking, balance := 100,
    status := .active, creation_date := 0, transactions := [],
    observers := [boomObserver], accrued_interest := 0 }

/-- C8 counterexample: the claim says an observer error is not propagated
and the operation still returns its Transaction; in the code
`notify_observers` has no exception handling, so the deposit on an account
whose observer raises returns the observer's error to the caller — while
the balance mutation and the appended Transaction are indeed retained. -/
theorem observer_error_not_swallowed_cex :
    (failObsAcct.deposit 50 3).2 = .error (.other "boom") ∧
    (failObsAcct.deposit 50 3).1.balance = 150 ∧
    (failObsAcct.deposit 50 3).1.transactions.length = 1 := by
  have hd := deposit_notify_error (a := failObsAcct)
    (by norm_num : (0:ℚ) < 50) 3 (e := .other "boom") rfl
  refine ⟨?_, ?_, ?_⟩
  · rw [hd]
  · rw [hd]
    show failObsAcct.balance + 50 = 150
    norm_num [failObsAcct]
  · rw [hd]
    simp [failObsAcct]

/-- C8 amended: when an observer callback raises during the notification
that follows a successful deposit, withdrawal or transfer, the error IS
propagated to the caller of the ledger operation (the operation does not
return its Transaction), while the completed mutations are retained, not
rolled back: the balance change and appended Transaction for deposit and
withdrawal, and for a transfer both balance changes and the Transaction
appended to both histories. -/
theorem observer_error_propagates (a : Account) (s : Store)
    (srcId dstId : String) (amount : ℚ) (ts : Nat) (e : Err)
    (h : 0 < amount) :
    (notify_observers a.observers (depTxn a amount ts) = .error e →
      a.deposit amount ts =
        ({ a with balance := a.balance + amount,
                  transactions := a.transactions ++ [depTxn a amount ts] },
         .error e)) ∧
    (can_withdraw a amount = true →
      notify_observers a.observers (wdTxn a amount ts) = .error e →
      a.withdraw amount ts =
        ({ a with balance := a.balance - amount,
                  transactions := a.transactions ++ [wdTxn a amount ts] },
         .error e)) ∧
    (can_withdraw (s srcId) amount = true →
      (s srcId).account_id ≠ "" → (s dstId).account_id ≠ "" →
      notify_observers (s srcId).observers
        (trTxn s srcId dstId amount ts) = .error e →
      transferS s srcId dstId amount ts =
        (storeSet (storeSet (storeSet (storeSet s
            srcId (fun b => { b with balance := b.balance - amount }))
            dstId (fun b => { b with balance := b.balance + amount }))
            srcId (fun b =>
              { b with transactions :=
                  b.transactions ++ [trTxn s srcId dstId amount ts] }))
            dstId (fun b =>
              { b with transactions :=
                  b.transactions ++ [trTxn s srcId dstId amount ts] }),
         .error e)) :=
  ⟨fun hn => deposit_notify_error h ts hn,
   fun hc hn => withdraw_notify_error h hc ts hn,
   fun hc hs hd hn => transferS_notify_error s srcId dstId ts h hc hs hd hn⟩

/-- A repository with the raising-observer account `F` and checking `B`
(balance 300). -/
def failObsStore : Store := fun x =>
  if x = "B" then acct "B" .checking 300 else failObsAcct

/-- Witness for C8 amended: the deposit of 50 on `failObsAcct` and the
transfer of 50 from `F` to `B` both return the observer's error with all
mutations retained. -/
theorem observer_error_propagates_witness :
    (failObsAcct.deposit 50 3 =
      ({ failObsAcct with
                  balance := failObsAcct.balance + 50,
                  transactions :=
                    failObsAcct.transactions ++ [depTxn failObsAcct 50 3] },
       .error (.other "boom"))) ∧
    (transferS failObsStore "F" "B" 50 4 =
      (storeSet (storeSet (storeSet (storeSet failObsStore
          "F" (fun b => { b with balance := b.balance - 50 }))
          "B" (fun b => { b with balance := b.balance + 50 }))
          "F" (fun b =>
            { b with transactions :=
                b.transactions ++ [trTxn failObsStore "F" "B" 50 4] }))
          "B" (fun b =>
            { b with transactions :=
                b.transactions ++ [trTxn failObsStore "F" "B" 50 4] }),
       .error (.other "boom"))) :=
  ⟨(observer_error_propagates failObsAcct failObsStore "F" "B" 50 3
      (.other "boom") (by norm_num)).1 rfl,
   (observer_error_propagates failObsAcct failObsStore "F" "B" 50 4
      (.other "boom") (by norm_num)).2.2 (by rfl) (by decide) (by decide) rfl⟩

/-- C9 counterexample: two distinct Transactions created with the same
explicitly supplied timestamp 7 share the transaction id `txn_7`. -/
theorem transaction_id_collision_cex :
    (mkTransaction .deposit 5 "A" 7 none none).toOption.map
      Transaction.transaction_id = some "txn_7" ∧
    (mkTransaction .withdraw 3 "B" 7 none none).toOption.map
      Transaction.transaction_id = some "txn_7" ∧
    (mkTransaction .deposit 5 "A" 7 none none).toOption ≠
      (mkTransaction .withdraw 3 "B" 7 none none).toOption := by
  refine ⟨?_, ?_, ?_⟩ <;> decide

lemma mkTransaction_ok_id {ty : TransactionType} {amount : ℚ} {aid : String}
    {ts : Nat} {src dst : Option String} {t : Transaction}
    (h : mkTransaction ty amount aid ts src dst = .ok t) :
    t.transaction_id = mkTransactionId ts ∧ t.timestamp = ts := by
  unfold mkTransaction at h
  split at h
  · simp at h
  · split at h
    · simp at h
    · cases h
      exact ⟨rfl, rfl⟩

/-- C9 amended: the transaction id is determined entirely by the timestamp
(`txn_` followed by the rendered timestamp): two successfully constructed
Transactions have equal ids iff they have equal timestamps — so ids are
unique across distinct timestamps, but transactions created with the same
supplied timestamp always collide. -/
theorem transaction_ids_determined_by_timestamp
    (ty1 ty2 : TransactionType) (am1 am2 : ℚ) (aid1 aid2 : String)
    (ts1 ts2 : Nat) (s1 d1 s2 d2 : Option String) (t1 t2 : Transaction)
    (h1 : mkTransaction ty1 am1 aid1 ts1 s1 d1 = .ok t1)
    (h2 : mkTransaction ty2 am2 aid2 ts2 s2 d2 = .ok t2) :
    t1.transaction_id = t2.transaction_id ↔ ts1 = ts2 := by
  rw [(mkTransaction_ok_id h1).1, (mkTransaction_ok_id h2).1]
  exact ⟨fun h => mkTransactionId_injective h, fun h => by rw [h]⟩

/-- Witness for C9 amended at timestamps 7 and 9. -/
theorem transaction_ids_determined_by_timestamp_witness :
    (({ transaction_type := .deposit, amount := 5, account_id := "A",
         timestamp := 7, transaction_id := mkTransactionId 7,
         source_account_id := none, destination_account_id := none } :
           Transaction).transaction_id =
      ({ transaction_type := .withdraw, amount := 3, account_id := "B",
          timestamp := 9, transaction_id := mkTransactionId 9,
          source_account_id := none, destination_account_id := none } :
            Transaction).transaction_id ↔ (7:Nat) = 9) :=
  transaction_ids_determined_by_timestamp .deposit .withdraw 5 3 "A" "B" 7 9
    none none none none _ _ rfl rfl

lemma mkTransaction_transfer_err {amount : ℚ} (h : 0 < amount) (aid : String)
    (ts : Nat) {src dst : Option String}
    (hf : ¬(truthyStr src = true ∧ truthyStr dst = true)) :
    mkTransaction .transfer amount aid ts src dst =
      .error .transferRequiresAccounts := by
  rw [mkTransaction, if_neg (not_le.mpr h), if_pos]
  exact ⟨rfl, hf⟩

lemma transferS_eq_err (s : Store) (srcId dstId : String) {amount : ℚ}
    (ts : Nat) (h : 0 < amount) (hc : can_withdraw (s srcId) amount = true)
    (hf : (s srcId).account_id = "" ∨ (s dstId).account_id = "") :
    transferS s srcId dstId amount ts =
      (storeSet (storeSet s
          srcId (fun a => { a with balance := a.balance - amount }))
          dstId (fun a => { a with balance := a.balance + amount }),
       .error .transferRequiresAccounts) := by
  have hft : ¬(truthyStr (some (s srcId).account_id) = true ∧
      truthyStr (some (s dstId).account_id) = true) := by
    rcases hf with hf | hf <;> simp [truthyStr, hf]
  rw [transferS]
  simp only [if_neg (not_le.mpr h), hc, Bool.not_true, not_false_iff,
    if_neg, ite_false]
  rw [mkTransaction_transfer_err h (s srcId).account_id ts hft]
  simp

/-- A repository whose account at key `""` has the empty string as its id
(checking, balance 500), next to checking account `B` (balance 300). -/
def emptyIdStore : Store := fun x =>
  if x = "B" then acct "B" .checking 300 else acct "" .checking 500

/-- C10 counterexample: the claim says any error raised by
`Account.transfer` (including a failed Transaction construction) leaves
both accounts unchanged; but both `update_balance` calls run before the
Transaction is constructed, so when the construction fails (empty source
account id) the call raises with the source already debited 50 and the
destination already credited 50. -/
theorem failed_transfer_mutates_balances_cex :
    (transferS emptyIdStore "" "B" 50 1).2 =
      .error .transferRequiresAccounts ∧
    ((transferS emptyIdStore "" "B" 50 1).1 "").balance = 450 ∧
    ((transferS emptyIdStore "" "B" 50 1).1 "B").balance = 350 := by
  have htr := transferS_eq_err emptyIdStore "" "B" 1
    (by norm_num : (0:ℚ) < 50) (by rfl) (Or.inl rfl)
  refine ⟨?_, ?_, ?_⟩
  · rw [htr]
  · rw [htr]
    simp [storeSet_apply, emptyIdStore, acct]
    norm_num
  · rw [htr]
    simp [storeSet_apply, emptyIdStore, acct]
    norm_num

/-- C10 amended: a deposit or withdrawal that raises (non-positive amount,
failed `can_withdraw`) returns the account exactly unchanged, and a
transfer that fails those same two checks returns the store exactly
unchanged; but a transfer whose Transaction construction fails (an empty
source or destination account id) raises only after both balance mutations
have been applied, which persist. -/
theorem failed_operation_state (a : Account) (s : Store)
    (srcId dstId : String) (amount : ℚ) (ts : Nat) :
    (amount ≤ 0 → a.deposit amount ts = (a, .error .invalidAmount)) ∧
    (amount ≤ 0 → a.withdraw amount ts = (a, .error .invalidAmount)) ∧
    (0 < amount → can_withdraw a amount = false →
      a.withdraw amount ts = (a, .error .insufficientFunds)) ∧
    (amount ≤ 0 →
      transferS s srcId dstId amount ts = (s, .error .invalidAmount)) ∧
    (0 < amount → can_withdraw (s srcId) amount = false →
      transferS s srcId dstId amount ts = (s, .error .insufficientFunds)) ∧
    (0 < amount → can_withdraw (s srcId) amount = true →
      ((s srcId).account_id = "" ∨ (s dstId).account_id = "") →
      transferS s srcId dstId amount ts =
        (storeSet (storeSet s
            srcId (fun b => { b with balance := b.balance - amount }))
            dstId (fun b => { b with balance := b.balance + amount }),
         .error .transferRequiresAccounts)) := by
  refine ⟨?_, ?_, ?_, ?_, ?_, ?_⟩
  · intro h
    simp [Account.deposit, h]
  · intro h
    simp [Account.withdraw, h]
  · intro h hc
    simp [Account.withdraw, not_le.mpr h, hc]
  · intro h
    simp [transferS, h]
  · intro h hc
    simp [transferS, not_le.mpr h, hc]
  · intro h hc hf
    exact transferS_eq_err s srcId dstId ts h hc hf

/-- Witness for C10 amended: a non-positive deposit leaves the account
unchanged; the transfer from the empty-id account applies both balance
mutations and raises. -/
theorem failed_operation_state_witness :
    (acct "A" .checking 500).deposit (-5) 1 =
      (acct "A" .checking 500, .error .invalidAmount) ∧
    transferS emptyIdStore "" "B" 50 2 =
      (storeSet (storeSet emptyIdStore
          "" (fun b => { b with balance := b.balance - 50 }))
          "B" (fun b => { b with balance := b.balance + 50 }),
       .error .transferRequiresAccounts) :=
  ⟨(failed_operation_state (acct "A" .checking 500) emptyIdStore "" "B"
      (-5) 1).1 (by norm_num),
   (failed_operation_state (acct "A" .checking 500) emptyIdStore "" "B"
      50 2).2.2.2.2.2 (by norm_num) (by rfl) (Or.inl rfl)⟩

end Banking
